import Mathlib

/-
Shallow embedding of the site-inspector service (src/main.py).

The program is a single-endpoint web service: `analyze_logic(url)` normalizes
the URL, extracts the network location, fetches the page, audits security
headers, parses title / meta description / social links, and then runs
best-effort probes (tech stack, WHOIS, DNS records) before assembling a
report dictionary.  External collaborators (HTTP fetch + HTML parse, DNS
resolver, WHOIS client, builtwith) are modelled as oracles supplied to the
function; everything the Python file computes itself is translated below.

Python string operations are modelled over the character list of a `String`
(Python indexes and slices strings by code point, which corresponds to
`String.data : List Char`).
-/

namespace SiteInspector

/-- Model of Python `s.startswith(p)`: character-wise prefix test. -/
def pyStartsWith (s p : String) : Bool :=
  p.data.isPrefixOf s.data

/-- Model of Python `s.lower()`: lowercase every character. -/
def lowerStr (s : String) : String :=
  String.mk (s.data.map Char.toLower)

/-- Helper for substring containment over character lists. -/
def containsSubAux (pat : List Char) : List Char → Bool
  | [] => pat.isEmpty
  | c :: rest => pat.isPrefixOf (c :: rest) || containsSubAux pat rest

/-- Model of Python `pat in s` for strings: substring containment. -/
def containsSub (s pat : String) : Bool :=
  containsSubAux pat.data s.data

/-- Model of Python `s.strip()`: drop whitespace at both ends. -/
def pyStrip (s : String) : String :=
  String.mk (((s.data.dropWhile Char.isWhitespace).reverse.dropWhile Char.isWhitespace).reverse)

/-- Helper splitting a character list at newline characters. -/
def splitLinesAux : List Char → List Char → List (List Char)
  | [], acc => [acc.reverse]
  | c :: rest, acc =>
    if c = '\n' then acc.reverse :: splitLinesAux rest []
    else splitLinesAux rest (c :: acc)

/-- Split a text into its newline-separated lines. -/
def pySplitLines (s : String) : List String :=
  (splitLinesAux s.data []).map String.mk

/-- The fixed five-header vocabulary of `analyze_headers` (src/main.py lines 57-63). -/
def securityHeaderNames : List String :=
  ["Strict-Transport-Security", "Content-Security-Policy", "X-Frame-Options",
   "X-Content-Type-Options", "Referrer-Policy"]

/-- Case-insensitive presence test for one audited header name
(`any(h.lower() == k.lower() for k in headers.keys())`, src/main.py line 70). -/
def headerPresent (headers : List (String × String)) (h : String) : Bool :=
  headers.any (fun kv => lowerStr h == lowerStr kv.1)

/-- Number of audited headers present in the response (the `score` counter of
`analyze_headers` before scaling, src/main.py lines 65-72). -/
def presentCount (headers : List (String × String)) : Nat :=
  securityHeaderNames.countP (fun h => headerPresent headers h)

/-- Embedding of `analyze_headers` (src/main.py lines 56-74): the
Present/Missing table over the fixed five names, and the percentage score
`int((score/total)*100)`.  For `score ∈ [0,5]` and `total = 5` the Python
float expression is exact and equals the rational floor `score * 100 / 5`,
which is how the score is rendered here (natural-number division). -/
def analyze_headers (headers : List (String × String)) :
    List (String × String) × Nat :=
  (securityHeaderNames.map
     (fun h => (h, if headerPresent headers h then "Present" else "Missing")),
   presentCount headers * 100 / securityHeaderNames.length)

/-- The parsed-HTML view of the fetched page that `analyze_logic` consumes:
the title element text, the content of the description meta tag, and the
`href` values of all anchors (src/main.py lines 102-113).  HTML parsing
itself (BeautifulSoup) is an external collaborator, so the parsed view is
supplied by the fetch oracle. -/
structure Page where
  title : Option String
  metaDescription : Option String
  anchorHrefs : List String
deriving DecidableEq

/-- Result of a successful primary fetch: status code, elapsed milliseconds
(the source derives `ttfb` from wall-clock time around the request), response
headers, and the parsed page. -/
structure Fetched where
  status : Nat
  ttfbMs : Nat
  headers : List (String × String)
  page : Page
deriving DecidableEq

/-- Raw WHOIS answer as the `whois` library hands it back: optional fields
(Python truthiness modelled by `Option`), and a creation date that is either
a list of date strings or a single rendered string
(src/main.py lines 125-131). -/
structure WhoisRaw where
  registrar : Option String
  org : Option String
  creationDate : List String ⊕ String
  country : Option String

/-- Embedding of the `whois_data` dictionary construction (src/main.py lines
126-131).  `none` models the `IndexError` raised by `w.creation_date[0]` on an
empty list, which the surrounding `except` turns into the error placeholder. -/
def mkWhoisData (w : WhoisRaw) : Option (List (String × String)) :=
  (match w.creationDate with
   | Sum.inl xs => xs.head?
   | Sum.inr s => some s).map
    (fun cd =>
      [("registrar", w.registrar.getD "Unknown"),
       ("org", w.org.getD "Redacted"),
       ("creation_date", cd),
       ("country", w.country.getD "Unknown")])

/-- The external collaborators of `analyze_logic`: the primary page fetch,
the builtwith tech-stack lookup, the WHOIS client, and the DNS resolver
(domain and record type to a record list). -/
structure Oracles where
  fetch : String → Except String Fetched
  tech : String → Except Unit (List (String × List String))
  whoisQ : String → Except Unit WhoisRaw
  dns : String → String → Except Unit (List String)

/-- One DNS record-type lookup with its local failure default
(src/main.py lines 36-49: each `resolver.resolve` is wrapped in its own
`try`/`except: pass`, leaving the empty list). -/
def fetchRecord (dnsO : String → String → Except Unit (List String))
    (domain rtype : String) : List String :=
  match dnsO domain rtype with
  | Except.ok xs => xs
  | Except.error _ => []

/-- Embedding of `get_dns_records` (src/main.py lines 28-54): starts from
`{MX: [], NS: [], A: []}` and fills each key only when its lookup succeeds. -/
def get_dns_records (dnsO : String → String → Except Unit (List String))
    (domain : String) : List (String × List String) :=
  [("MX", fetchRecord dnsO domain "MX"),
   ("NS", fetchRecord dnsO domain "NS"),
   ("A", fetchRecord dnsO domain "A")]

/-- The substrings that mark an anchor as a social link
(src/main.py line 111). -/
def socialKeys : List String :=
  ["facebook.com", "twitter.com", "linkedin.com", "instagram.com", "github.com"]

/-- The social-link filter (src/main.py line 111): the lowercased href must
contain one of the social substrings. -/
def socialMatch (href : String) : Bool :=
  socialKeys.any (fun x => containsSub (lowerStr href) x)

/-- Embedding of the social-link collection loop (src/main.py lines 108-113).
The duplicate check compares the lowercased href against the accumulated
original-case entries, exactly as the source does (`href` is lowered, but
`link['href']` is appended). -/
def collectSocials : List String → List String → List String
  | [], acc => acc
  | h :: rest, acc =>
    if socialMatch h then
      if lowerStr h ∈ acc then collectSocials rest acc
      else collectSocials rest (acc ++ [h])
    else collectSocials rest acc

/-- URL normalization (src/main.py lines 78-81): prefix `https://` unless the
input already starts with `http://` or `https://`. -/
def normalizeUrl (url : String) : String :=
  if pyStartsWith url "http://" || pyStartsWith url "https://" then url
  else "https://" ++ url

/-- Model of `urlparse(target_url).netloc` (src/main.py lines 84-85) for the
URLs `analyze_logic` produces: after normalization the target always starts
with `http://` or `https://`, and `urlparse` then takes the characters after
the scheme separator up to the first `/`, `?` or `#`.  For a string without
a `//` authority `urlparse` yields an empty netloc, which the final branch
mirrors. -/
def netlocOf (target : String) : String :=
  if pyStartsWith target "https://" then
    String.mk ((target.data.drop 8).takeWhile (fun c => !(c == '/' || c == '?' || c == '#')))
  else if pyStartsWith target "http://" then
    String.mk ((target.data.drop 7).takeWhile (fun c => !(c == '/' || c == '?' || c == '#')))
  else ""

/-- The description truncation of the report (src/main.py line 146):
`description[:100] + "..." if len(description) > 100 else description`. -/
def truncateDescription (d : String) : String :=
  if 100 < d.length then String.mk (d.data.take 100 ++ "...".data) else d

/-- Case-insensitive header lookup modelling `response.headers.get(key)`
(requests exposes headers as a case-insensitive mapping). -/
def headerGet (headers : List (String × String)) (k : String) : Option String :=
  (headers.find? (fun kv => lowerStr kv.1 == lowerStr k)).map Prod.snd

/-- The overview sub-dictionary of the report (src/main.py lines 139-147). -/
structure Overview where
  url : String
  domain : String
  status : Nat
  ttfb_ms : Nat
  server : String
  title : String
  description : String
deriving DecidableEq

/-- The report dictionary assembled by `analyze_logic`
(src/main.py lines 138-156). -/
structure Report where
  overview : Overview
  tech : List (String × List String)
  securityScore : Nat
  securityHeaders : List (String × String)
  dns : List (String × List String)
  whoisData : List (String × String)
  socials : List String
deriving DecidableEq

/-- The value `analyze_logic` hands back: a full report or an error object. -/
inductive AnalyzeResult where
  | ok (r : Report)
  | err (msg : String)
deriving DecidableEq

/-- Assembly of the report for a successful primary fetch (src/main.py lines
102-156): titles and description from the parsed page, tech stack degraded to
`{}` on failure, WHOIS degraded to `{"error": "Hidden"}` on failure, DNS via
`get_dns_records`, socials deduplicated through a set and truncated to five.
`setOrder` models the iteration order of the Python `set` in
`list(set(socials))` — an order chosen by the runtime, not by the source. -/
def buildReport (O : Oracles) (setOrder : List String → List String)
    (url : String) (resp : Fetched) : Report :=
  { overview :=
      { url := normalizeUrl url
        domain := netlocOf (normalizeUrl url)
        status := resp.status
        ttfb_ms := resp.ttfbMs
        server := (headerGet resp.headers "Server").getD "Unknown"
        title := resp.page.title.getD "No Title"
        description := truncateDescription (resp.page.metaDescription.getD "No Description") }
    tech :=
      match O.tech (normalizeUrl url) with
      | Except.ok t => t
      | Except.error _ => []
    securityScore := (analyze_headers resp.headers).2
    securityHeaders := (analyze_headers resp.headers).1
    dns := get_dns_records O.dns (netlocOf (normalizeUrl url))
    whoisData :=
      match O.whoisQ (netlocOf (normalizeUrl url)) with
      | Except.ok w => (mkWhoisData w).getD [("error", "Hidden")]
      | Except.error _ => [("error", "Hidden")]
    socials := (setOrder (collectSocials resp.page.anchorHrefs [])).take 5 }

/-- Embedding of `analyze_logic` (src/main.py lines 76-156): normalize the
URL, reject an empty netloc before any network activity, abort with a
connection error when the primary fetch fails, and otherwise assemble the
report. -/
def analyze_logic (O : Oracles) (setOrder : List String → List String)
    (url : String) : AnalyzeResult :=
  if netlocOf (normalizeUrl url) = "" then AnalyzeResult.err "Invalid URL"
  else
    match O.fetch (normalizeUrl url) with
    | Except.error e => AnalyzeResult.err ("Could not connect: " ++ e)
    | Except.ok resp => AnalyzeResult.ok (buildReport O setOrder url resp)

/-- A function is a valid model of Python set iteration order when it returns
the distinct elements of its input, each exactly once, in some order. -/
def ValidSetOrder (f : List String → List String) : Prop :=
  ∀ xs, (f xs).Nodup ∧ ∀ y, y ∈ f xs ↔ y ∈ xs

/-- One possible set iteration order: first occurrences kept in list order. -/
def setOrderFwd (xs : List String) : List String :=
  xs.dedup

/-- Another possible set iteration order: the same elements reversed. -/
def setOrderRev (xs : List String) : List String :=
  xs.dedup.reverse

/-- Whether an analysis result is a report rather than an error object. -/
def resultIsOk : AnalyzeResult → Bool
  | AnalyzeResult.ok _ => true
  | AnalyzeResult.err _ => false

/-- The whois sub-section of a result (empty for error results). -/
def resultWhois : AnalyzeResult → List (String × String)
  | AnalyzeResult.ok r => r.whoisData
  | AnalyzeResult.err _ => []

/-- A result with its socials list erased, used to compare two runs on every
other field. -/
def stripSocials : AnalyzeResult → AnalyzeResult
  | AnalyzeResult.ok r => AnalyzeResult.ok { r with socials := [] }
  | AnalyzeResult.err e => AnalyzeResult.err e

/-- Modelled from the spec: the three semantic roles of the Taint-Pattern
Scanner rule catalog (spec section 4.1).  The scanner itself is part of this
repository's corpus but absent from src/, so it is reconstructed from the
specification text. -/
inductive Role where
  | source
  | gadget
  | sink
deriving DecidableEq

/-- Modelled from the spec: a pattern rule — a semantic role, a label, and a
match predicate standing in for the compiled regular expression
(spec section 3, PatternRule). -/
structure PatternRule where
  role : Role
  label : String
  matchesLine : String → Bool

/-- Modelled from the spec: a line-numbered finding (spec section 3,
Finding). -/
structure Finding where
  category : Role
  label : String
  location : String
  line : Nat
  snippet : String
deriving DecidableEq

/-- Modelled from the spec: the per-line rule application of the Code
Scanner — every rule is tested on every line, matches produce findings with
the 1-based line index and the trimmed line as snippet (spec section 4.2). -/
def scanLines (rules : List PatternRule) (location : String) :
    Nat → List String → List Finding
  | _, [] => []
  | i, line :: rest =>
    ((rules.filter (fun r => r.matchesLine line)).map
      (fun r =>
        { category := r.role, label := r.label, location := location,
          line := i, snippet := pyStrip line })) ++
    scanLines rules location (i + 1) rest

/-- Modelled from the spec: `scan(text, location)` of the Code Scanner —
split the text into lines and apply every rule to every line
(spec section 4.2). -/
def scan (rules : List PatternRule) (text location : String) : List Finding :=
  scanLines rules location 1 (pySplitLines text)

/-- Modelled from the spec: the per-role finding counts of a ScanResult
(spec section 3, counts). -/
structure Counts where
  sources : Nat
  gadgets : Nat
  sinks : Nat
deriving DecidableEq

/-- Modelled from the spec: counts as the multiset cardinality of the
findings grouped by category (spec section 3 invariant). -/
def countsOf (fs : List Finding) : Counts :=
  { sources := fs.countP (fun f => f.category == Role.source)
    gadgets := fs.countP (fun f => f.category == Role.gadget)
    sinks := fs.countP (fun f => f.category == Role.sink) }

/-- Modelled from the spec: the confidence tiers (spec section 3). -/
inductive Confidence where
  | low
  | medium
  | high
deriving DecidableEq

/-- Modelled from the spec: confidence derivation, first match wins — High
when all three roles occur, Medium when a source co-occurs with a gadget or
sink, Low otherwise (spec section 4.4). -/
def confidenceOf (c : Counts) : Confidence :=
  if 0 < c.sources ∧ 0 < c.gadgets ∧ 0 < c.sinks then Confidence.high
  else if 0 < c.sources ∧ (0 < c.gadgets ∨ 0 < c.sinks) then Confidence.medium
  else Confidence.low

/-- A parsed page with no title, no meta description and no anchors, for
exercising the degradation paths. -/
def demoPage : Page :=
  { title := none, metaDescription := none, anchorHrefs := [] }

/-- A fetch result with empty headers over `demoPage`. -/
def demoFetched : Fetched :=
  { status := 200, ttfbMs := 12, headers := [], page := demoPage }

/-- Oracles whose primary fetch succeeds with `demoFetched` while every
downstream probe (tech stack, WHOIS, every DNS record type) fails. -/
def demoOracles : Oracles :=
  { fetch := fun _ => Except.ok demoFetched
    tech := fun _ => Except.error ()
    whoisQ := fun _ => Except.error ()
    dns := fun _ _ => Except.error () }

/-- The report `analyze_logic demoOracles setOrderFwd "example.com"`
produces: every degraded section holds its documented default. -/
def demoReport : Report :=
  { overview :=
      { url := "https://example.com", domain := "example.com", status := 200,
        ttfb_ms := 12, server := "Unknown", title := "No Title",
        description := "No Description" }
    tech := []
    securityScore := 0
    securityHeaders :=
      [("Strict-Transport-Security", "Missing"),
       ("Content-Security-Policy", "Missing"),
       ("X-Frame-Options", "Missing"),
       ("X-Content-Type-Options", "Missing"),
       ("Referrer-Policy", "Missing")]
    dns := [("MX", []), ("NS", []), ("A", [])]
    whoisData := [("error", "Hidden")]
    socials := [] }

/-- Oracles whose primary fetch always fails with a timeout message. -/
def failOracles : Oracles :=
  { fetch := fun _ => Except.error "timeout"
    tech := fun _ => Except.ok []
    whoisQ := fun _ => Except.error ()
    dns := fun _ _ => Except.ok [] }

/-- A page carrying two distinct social links, for exhibiting the dependence
of the socials list on the set iteration order. -/
def socialPage : Page :=
  { title := some "Demo", metaDescription := some "A demo page",
    anchorHrefs := ["https://facebook.com/a", "https://twitter.com/b"] }

/-- A fetch result with empty headers over `socialPage`. -/
def socialFetched : Fetched :=
  { status := 200, ttfbMs := 7, headers := [], page := socialPage }

/-- Oracles whose primary fetch succeeds with `socialFetched`. -/
def socialOracles : Oracles :=
  { fetch := fun _ => Except.ok socialFetched
    tech := fun _ => Except.ok []
    whoisQ := fun _ => Except.error ()
    dns := fun _ _ => Except.ok [] }

/-- The report `analyze_logic socialOracles setOrderFwd "example.com"`
produces. -/
def socialReport : Report :=
  { overview :=
      { url := "https://example.com", domain := "example.com", status := 200,
        ttfb_ms := 7, server := "Unknown", title := "Demo",
        description := "A demo page" }
    tech := []
    securityScore := 0
    securityHeaders :=
      [("Strict-Transport-Security", "Missing"),
       ("Content-Security-Policy", "Missing"),
       ("X-Frame-Options", "Missing"),
       ("X-Content-Type-Options", "Missing"),
       ("Referrer-Policy", "Missing")]
    dns := [("MX", []), ("NS", []), ("A", [])]
    whoisData := [("error", "Hidden")]
    socials := ["https://facebook.com/a", "https://twitter.com/b"] }

/-- Characters allowed after the first character of a URL scheme
(RFC 3986: ALPHA / DIGIT / plus / minus / dot). -/
def schemeCharOk (c : Char) : Bool :=
  c.isAlphanum || c == '+' || c == '-' || c == '.'

/-- Modelled from the spec: whether a URL string carries a scheme — a colon
preceded by a nonempty run of scheme characters starting with a letter.  The
spec speaks of inputs with and without a scheme (section 6, inbound
interface); the source itself never computes this, it only tests for the two
literal string heads `http://` and `https://`. -/
def hasSchemeSpec (url : String) : Bool :=
  decide ((url.data.takeWhile (fun c => c != ':')).length < url.data.length) &&
    (match url.data.takeWhile (fun c => c != ':') with
     | [] => false
     | c :: rest => c.isAlpha && rest.all schemeCharOk)

/-- A one-rule catalog for exercising the Code Scanner: a Source rule firing
on mentions of the URL hash fragment. -/
def demoRules : List PatternRule :=
  [{ role := Role.source, label := "location.hash",
     matchesLine := fun s => containsSub s "location.hash" }]

end SiteInspector

namespace SiteInspector

/-- Claim C1: the security header auditor checks presence of exactly the five
headers Strict-Transport-Security, Content-Security-Policy, X-Frame-Options,
X-Content-Type-Options, Referrer-Policy, matching names case-insensitively,
and returns a score equal to floor(100 * presentCount / 5) = 20 * presentCount
for every presentCount in [0,5]; with all five present the score is 100. -/
theorem c1_header_audit_score (headers : List (String × String)) :
    ((analyze_headers headers).1.map Prod.fst = securityHeaderNames) ∧
    (∀ h status, (h, status) ∈ (analyze_headers headers).1 →
        (status = "Present" ↔ headerPresent headers h = true)) ∧
    presentCount headers ≤ 5 ∧
    (analyze_headers headers).2 = 100 * presentCount headers / 5 ∧
    (analyze_headers headers).2 = 20 * presentCount headers ∧
    (presentCount headers = 5 → (analyze_headers headers).2 = 100) := by
  have hdiv : presentCount headers * 100 / 5 = 20 * presentCount headers := by
    have h100 : presentCount headers * 100 = 5 * (20 * presentCount headers) := by ring
    rw [h100, Nat.mul_div_cancel_left _ (by norm_num)]
  refine ⟨rfl, ?_, ?_, ?_, ?_, ?_⟩
  · intro h status hmem
    simp only [analyze_headers, List.mem_map] at hmem
    obtain ⟨a, _, heq⟩ := hmem
    injection heq with h1 h2
    subst h2
    rw [← h1]
    by_cases hp : headerPresent headers a = true
    · rw [if_pos hp]
      exact ⟨fun _ => hp, fun _ => rfl⟩
    · rw [if_neg hp]
      constructor
      · intro hc
        exact absurd hc (by decide)
      · intro hc
        exact absurd hc hp
  · exact List.countP_le_length _
  · show presentCount headers * 100 / 5 = 100 * presentCount headers / 5
    rw [Nat.mul_comm]
  · exact hdiv
  · intro h5
    show presentCount headers * 100 / 5 = 100
    rw [h5]

/-- Witness for C1: with all five audited headers supplied (in lowercase, so
the match is exercised case-insensitively) the score is 100. -/
theorem c1_header_audit_score_witness :
    presentCount
        [("strict-transport-security", "max-age=63072000"),
         ("content-security-policy", "default-src none"),
         ("x-frame-options", "DENY"),
         ("x-content-type-options", "nosniff"),
         ("referrer-policy", "no-referrer")] = 5 ∧
    (analyze_headers
        [("strict-transport-security", "max-age=63072000"),
         ("content-security-policy", "default-src none"),
         ("x-frame-options", "DENY"),
         ("x-content-type-options", "nosniff"),
         ("referrer-policy", "no-referrer")]).2 = 100 :=
  ⟨by decide,
   (c1_header_audit_score _).2.2.2.2.2 (by decide)⟩

/-- The audited-header table always carries exactly the five fixed names. -/
theorem analyze_headers_keys (headers : List (String × String)) :
    (analyze_headers headers).1.map Prod.fst = securityHeaderNames :=
  rfl

/-- The DNS record mapping always carries exactly the keys MX, NS, A. -/
theorem get_dns_records_keys (dnsO : String → String → Except Unit (List String))
    (domain : String) :
    (get_dns_records dnsO domain).map Prod.fst = ["MX", "NS", "A"] :=
  rfl

/-- Appending strings concatenates their character lists. -/
theorem data_append : ∀ (s t : String), (s ++ t).data = s.data ++ t.data
  | ⟨_⟩, ⟨_⟩ => rfl

/-- A character list is a prefix of itself followed by anything. -/
theorem isPrefixOf_append_self : ∀ (l t : List Char), l.isPrefixOf (l ++ t) = true
  | [], [] => rfl
  | [], _ :: _ => rfl
  | c :: l, t => by
    show (c == c && l.isPrefixOf (l ++ t)) = true
    rw [beq_self_eq_true, Bool.true_and, isPrefixOf_append_self l t]

/-- Prefixing `https://` always produces a string that starts with it. -/
theorem pyStartsWith_https_append (url : String) :
    pyStartsWith ("https://" ++ url) "https://" = true := by
  unfold pyStartsWith
  rw [data_append]
  exact isPrefixOf_append_self _ _

/-- A description of at most 100 characters is kept verbatim. -/
theorem truncateDescription_short {d : String} (h : d.length ≤ 100) :
    truncateDescription d = d := by
  unfold truncateDescription
  rw [if_neg (by omega)]

/-- A description of more than 100 characters is cut to its first 100
characters plus an ellipsis. -/
theorem truncateDescription_long {d : String} (h : 100 < d.length) :
    truncateDescription d = String.mk (d.data.take 100 ++ "...".data) := by
  unfold truncateDescription
  rw [if_pos h]

/-- The rendered description never exceeds 103 characters. -/
theorem truncateDescription_length (d : String) :
    (truncateDescription d).length ≤ 103 := by
  have hlen : d.length = d.data.length := rfl
  unfold truncateDescription
  by_cases h : 100 < d.length
  · rw [if_pos h]
    show (d.data.take 100 ++ "...".data).length ≤ 103
    rw [List.length_append, List.length_take]
    have h3 : ("...".data).length = 3 := rfl
    omega
  · rw [if_neg h]
    omega

/-- A successful analysis is exactly a nonempty netloc plus a successful
primary fetch, and the report is then `buildReport`. -/
theorem analyze_ok_iff {O : Oracles} {so : List String → List String}
    {url : String} {r : Report} :
    analyze_logic O so url = AnalyzeResult.ok r ↔
      netlocOf (normalizeUrl url) ≠ "" ∧
      ∃ resp, O.fetch (normalizeUrl url) = Except.ok resp ∧
        r = buildReport O so url resp := by
  unfold analyze_logic
  by_cases hd : netlocOf (normalizeUrl url) = ""
  · simp [hd]
  · rw [if_neg hd]
    cases hf : O.fetch (normalizeUrl url) with
    | error e => simp [hd, hf]
    | ok resp => simp [hd, hf, eq_comm]

/-- Every element the social-link loop collects is either carried over from
the accumulator or is a matching anchor href. -/
theorem mem_collectSocials :
    ∀ (anchors acc : List String) (s : String),
      s ∈ collectSocials anchors acc →
      s ∈ acc ∨ (s ∈ anchors ∧ socialMatch s = true)
  | [], _, _, h => Or.inl h
  | h :: rest, acc, s, hmem => by
    unfold collectSocials at hmem
    by_cases hm : socialMatch h = true
    · rw [if_pos hm] at hmem
      by_cases hdup : lowerStr h ∈ acc
      · rw [if_pos hdup] at hmem
        rcases mem_collectSocials rest acc s hmem with h1 | h2
        · exact Or.inl h1
        · exact Or.inr ⟨List.mem_cons_of_mem _ h2.1, h2.2⟩
      · rw [if_neg hdup] at hmem
        rcases mem_collectSocials rest (acc ++ [h]) s hmem with h1 | h2
        · rcases List.mem_append.mp h1 with ha | hb
          · exact Or.inl ha
          · have hsh : s = h := by simpa using hb
            subst hsh
            exact Or.inr ⟨List.mem_cons_self _ _, hm⟩
        · exact Or.inr ⟨List.mem_cons_of_mem _ h2.1, h2.2⟩
    · rw [if_neg hm] at hmem
      rcases mem_collectSocials rest acc s hmem with h1 | h2
      · exact Or.inl h1
      · exact Or.inr ⟨List.mem_cons_of_mem _ h2.1, h2.2⟩

/-- Keeping first occurrences in list order is a valid set iteration order. -/
theorem validSetOrderFwd : ValidSetOrder setOrderFwd :=
  fun xs => ⟨List.nodup_dedup xs, fun _ => List.mem_dedup⟩

/-- The reversed deduplicated list is a valid set iteration order. -/
theorem validSetOrderRev : ValidSetOrder setOrderRev :=
  fun xs =>
    ⟨List.nodup_reverse.mpr (List.nodup_dedup xs),
     fun y => by
       show y ∈ xs.dedup.reverse ↔ y ∈ xs
       rw [List.mem_reverse, List.mem_dedup]⟩

/-- A successfully constructed whois mapping carries exactly the four
documented keys, in particular no error key. -/
theorem mkWhoisData_keys :
    ∀ (w : WhoisRaw) (d : List (String × String)),
      mkWhoisData w = some d →
      d.map Prod.fst = ["registrar", "org", "creation_date", "country"]
  | ⟨_, _, Sum.inl [], _⟩, _, h => by simp [mkWhoisData] at h
  | ⟨_, _, Sum.inl (a :: as), _⟩, d, h => by
    simp [mkWhoisData] at h
    subst h
    rfl
  | ⟨_, _, Sum.inr s, _⟩, d, h => by
    simp [mkWhoisData] at h
    subst h
    rfl

/-- Counterexample to claim C2 as stated: with a successful primary fetch and
a failing WHOIS lookup, `analyze_logic` returns a successful Report whose
whois sub-section is exactly the error object with key "error" — a degraded
sub-section of a successful Report does carry an error field
(src/main.py line 133). -/
theorem c2_error_mixing_counterexample :
    resultIsOk (analyze_logic demoOracles setOrderFwd "example.com") = true ∧
    resultWhois (analyze_logic demoOracles setOrderFwd "example.com") =
      [("error", "Hidden")] := by
  exact ⟨by decide, by decide⟩

/-- Claim C2 (amended): `analyze_logic` returns either a Report or a
single-field error object, and inside a successful Report the DNS and
security-header sub-sections never carry an error field; the whois
sub-section either carries no error field or is exactly the single-field
placeholder mapping with "error" bound to "Hidden", which the code installs
when the WHOIS lookup fails. -/
theorem c2_error_isolation_amended (O : Oracles) (so : List String → List String)
    (url : String) (r : Report)
    (h : analyze_logic O so url = AnalyzeResult.ok r) :
    "error" ∉ r.dns.map Prod.fst ∧
    "error" ∉ r.securityHeaders.map Prod.fst ∧
    (r.whoisData = [("error", "Hidden")] ∨
      "error" ∉ r.whoisData.map Prod.fst) := by
  obtain ⟨hd, resp, hf, hrb⟩ := analyze_ok_iff.mp h
  subst hrb
  refine ⟨?_, ?_, ?_⟩
  · rw [show (buildReport O so url resp).dns =
        get_dns_records O.dns (netlocOf (normalizeUrl url)) from rfl,
      get_dns_records_keys]
    decide
  · rw [show (buildReport O so url resp).securityHeaders =
        (analyze_headers resp.headers).1 from rfl,
      analyze_headers_keys]
    decide
  · have hwq : (buildReport O so url resp).whoisData =
        (match O.whoisQ (netlocOf (normalizeUrl url)) with
          | Except.ok w => (mkWhoisData w).getD [("error", "Hidden")]
          | Except.error _ => [("error", "Hidden")]) := rfl
    rw [hwq]
    cases hw : O.whoisQ (netlocOf (normalizeUrl url)) with
    | error u => exact Or.inl rfl
    | ok w =>
      cases hmk : mkWhoisData w with
      | none =>
        refine Or.inl ?_
        show (mkWhoisData w).getD [("error", "Hidden")] = [("error", "Hidden")]
        rw [hmk]
        rfl
      | some d =>
        refine Or.inr ?_
        show "error" ∉ ((mkWhoisData w).getD [("error", "Hidden")]).map Prod.fst
        rw [hmk]
        show "error" ∉ d.map Prod.fst
        rw [mkWhoisData_keys w d hmk]
        decide

/-- Witness for the amended C2: on the demo run with a failing WHOIS probe
the report's DNS section has no error key and its whois section is exactly
the placeholder. -/
theorem c2_error_isolation_amended_witness :
    "error" ∉ demoReport.dns.map Prod.fst ∧
    (demoReport.whoisData = [("error", "Hidden")] ∨
      "error" ∉ demoReport.whoisData.map Prod.fst) :=
  ⟨(c2_error_isolation_amended demoOracles setOrderFwd "example.com" demoReport
      (by decide)).1,
   (c2_error_isolation_amended demoOracles setOrderFwd "example.com" demoReport
      (by decide)).2.2⟩

/-- Claim C3: a failure of the primary page fetch aborts the whole analysis
with the error object built from the exception message, and the result does
not depend on the downstream tech-stack, WHOIS or DNS oracles — no downstream
analyzer runs (src/main.py lines 93-115: the `except` returns before the
tech, whois and DNS stages). -/
theorem c3_fetch_failure_aborts (O : Oracles) (so : List String → List String)
    (url e : String)
    (hd : netlocOf (normalizeUrl url) ≠ "")
    (hf : O.fetch (normalizeUrl url) = Except.error e) :
    analyze_logic O so url = AnalyzeResult.err ("Could not connect: " ++ e) ∧
    (∀ (O' : Oracles) (so' : List String → List String),
        O'.fetch = O.fetch →
        analyze_logic O' so' url = analyze_logic O so url) := by
  have hmain : ∀ (O' : Oracles) (so' : List String → List String),
      O'.fetch = O.fetch →
      analyze_logic O' so' url = AnalyzeResult.err ("Could not connect: " ++ e) := by
    intro O' so' hOO
    unfold analyze_logic
    rw [if_neg hd, hOO, hf]
  refine ⟨hmain O so rfl, fun O' so' hOO => ?_⟩
  rw [hmain O' so' hOO, hmain O so rfl]

/-- Witness for C3: with a fetch oracle that times out, the analysis of
example.com surfaces the connection error. -/
theorem c3_fetch_failure_aborts_witness :
    analyze_logic failOracles setOrderFwd "example.com" =
      AnalyzeResult.err "Could not connect: timeout" :=
  (c3_fetch_failure_aborts failOracles setOrderFwd "example.com" "timeout"
      (by decide) rfl).1

/-- Claim C4: individual downstream probe failures are caught locally and
replaced by the documented defaults, and never abort the pipeline:
`get_dns_records` is total with exactly the keys MX, NS, A (a failing record
type staying the empty list), a failing tech-stack lookup degrades to the
empty mapping, and a failing WHOIS lookup degrades to its placeholder, while
the analysis still returns a full Report. -/
theorem c4_probe_failures_degrade :
    (∀ (dnsO : String → String → Except Unit (List String)) (domain : String),
        (get_dns_records dnsO domain).map Prod.fst = ["MX", "NS", "A"] ∧
        (dnsO domain "MX" = Except.error () →
            ("MX", ([] : List String)) ∈ get_dns_records dnsO domain) ∧
        (dnsO domain "NS" = Except.error () →
            ("NS", ([] : List String)) ∈ get_dns_records dnsO domain) ∧
        (dnsO domain "A" = Except.error () →
            ("A", ([] : List String)) ∈ get_dns_records dnsO domain)) ∧
    (∀ (O : Oracles) (so : List String → List String) (url : String)
        (resp : Fetched),
        netlocOf (normalizeUrl url) ≠ "" →
        O.fetch (normalizeUrl url) = Except.ok resp →
        analyze_logic O so url =
          AnalyzeResult.ok (buildReport O so url resp) ∧
        (O.tech (normalizeUrl url) = Except.error () →
            (buildReport O so url resp).tech = []) ∧
        (O.whoisQ (netlocOf (normalizeUrl url)) = Except.error () →
            (buildReport O so url resp).whoisData = [("error", "Hidden")]) ∧
        (buildReport O so url resp).dns =
          get_dns_records O.dns (netlocOf (normalizeUrl url))) := by
  constructor
  · intro dnsO domain
    refine ⟨rfl, ?_, ?_, ?_⟩
    · intro h
      simp [get_dns_records, fetchRecord, h]
    · intro h
      simp [get_dns_records, fetchRecord, h]
    · intro h
      simp [get_dns_records, fetchRecord, h]
  · intro O so url resp hd hf
    refine ⟨?_, ?_, ?_, rfl⟩
    · unfold analyze_logic
      rw [if_neg hd, hf]
    · intro ht
      show (match O.tech (normalizeUrl url) with
        | Except.ok t => t
        | Except.error _ => []) = ([] : List (String × List String))
      rw [ht]
    · intro hw
      show (match O.whoisQ (netlocOf (normalizeUrl url)) with
        | Except.ok w => (mkWhoisData w).getD [("error", "Hidden")]
        | Except.error _ => [("error", "Hidden")]) = [("error", "Hidden")]
      rw [hw]

/-- Witness for C4: on the demo run every probe fails, yet the analysis
returns the full report with the empty MX record list and the whois
placeholder. -/
theorem c4_probe_failures_degrade_witness :
    ("MX", ([] : List String)) ∈ get_dns_records demoOracles.dns "example.com" ∧
    analyze_logic demoOracles setOrderFwd "example.com" =
      AnalyzeResult.ok (buildReport demoOracles setOrderFwd "example.com" demoFetched) ∧
    (buildReport demoOracles setOrderFwd "example.com" demoFetched).whoisData =
      [("error", "Hidden")] :=
  ⟨(c4_probe_failures_degrade.1 demoOracles.dns "example.com").2.1 rfl,
   (c4_probe_failures_degrade.2 demoOracles setOrderFwd "example.com" demoFetched
      (by decide) rfl).1,
   (c4_probe_failures_degrade.2 demoOracles setOrderFwd "example.com" demoFetched
      (by decide) rfl).2.2.1 rfl⟩

/-- Claim C5: the Taint-Pattern Scanner's confidence tier is High exactly
when all three role counts are positive, and a text with no rule matches
yields an empty finding sequence with Low confidence (spec sections 4.2,
4.4 and 8; the scanner is modelled from the spec, being absent from src/). -/
theorem c5_confidence_tiers :
    (∀ c : Counts,
        confidenceOf c = Confidence.high ↔
          0 < c.sources ∧ 0 < c.gadgets ∧ 0 < c.sinks) ∧
    (∀ (rules : List PatternRule) (text location : String),
        (∀ line ∈ pySplitLines text, ∀ r ∈ rules, r.matchesLine line = false) →
        scan rules text location = [] ∧
        confidenceOf (countsOf (scan rules text location)) = Confidence.low) := by
  constructor
  · intro c
    unfold confidenceOf
    by_cases h : 0 < c.sources ∧ 0 < c.gadgets ∧ 0 < c.sinks
    · rw [if_pos h]
      simp [h]
    · rw [if_neg h]
      by_cases h2 : 0 < c.sources ∧ (0 < c.gadgets ∨ 0 < c.sinks)
      · rw [if_pos h2]
        simp [h]
      · rw [if_neg h2]
        simp [h]
  · intro rules text location hnone
    have hall : ∀ (i : Nat) (ls : List String),
        (∀ line ∈ ls, ∀ r ∈ rules, r.matchesLine line = false) →
        scanLines rules location i ls = [] := by
      intro i ls
      induction ls generalizing i with
      | nil => intro _; rfl
      | cons l rest ih =>
        intro hl
        show ((rules.filter (fun r => r.matchesLine l)).map _) ++
            scanLines rules location (i + 1) rest = []
        have hfil : rules.filter (fun r => r.matchesLine l) = [] := by
          rw [List.filter_eq_nil_iff]
          intro r hr
          simp [hl l (List.mem_cons_self _ _) r hr]
        rw [hfil,
          ih (i + 1) (fun line hline r hr => hl line (List.mem_cons_of_mem _ hline) r hr)]
        rfl
    have hscan : scan rules text location = [] := hall 1 _ hnone
    refine ⟨hscan, ?_⟩
    rw [hscan]
    decide

/-- Witness for C5: concrete counts with all roles positive give High, and a
two-line text that no rule of the demo catalog matches scans to no findings
with Low confidence. -/
theorem c5_confidence_tiers_witness :
    confidenceOf { sources := 1, gadgets := 1, sinks := 1 } = Confidence.high ∧
    scan demoRules "hello\nworld" "inline" = [] ∧
    confidenceOf (countsOf (scan demoRules "hello\nworld" "inline")) =
      Confidence.low :=
  ⟨(c5_confidence_tiers.1 _).mpr (by decide),
   (c5_confidence_tiers.2 demoRules "hello\nworld" "inline" (by decide)).1,
   (c5_confidence_tiers.2 demoRules "hello\nworld" "inline" (by decide)).2⟩

/-- Counterexample to claim C6 as stated: `ftp://example.com` carries a
scheme, yet normalization does not leave it unchanged — the source only
tests for the literal heads `http://` and `https://` (src/main.py line 78),
so it prepends `https://` to any other scheme. -/
theorem c6_normalize_counterexample :
    hasSchemeSpec "ftp://example.com" = true ∧
    normalizeUrl "ftp://example.com" = "https://ftp://example.com" ∧
    normalizeUrl "ftp://example.com" ≠ "ftp://example.com" := by
  exact ⟨by decide, by decide, by decide⟩

/-- Claim C6 (amended): `analyze_logic` prefixes `https://` exactly when the
input does not already start with `http://` or `https://`; inputs starting
with either of those two literal prefixes are left unchanged, while an input
carrying any other scheme also receives the `https://` prefix.  The
normalized URL always starts with one of the two heads, so normalization is
idempotent. -/
theorem c6_normalize_amended (url : String) :
    ((pyStartsWith url "http://" || pyStartsWith url "https://") = true →
        normalizeUrl url = url) ∧
    ((pyStartsWith url "http://" || pyStartsWith url "https://") = false →
        normalizeUrl url = "https://" ++ url) ∧
    normalizeUrl (normalizeUrl url) = normalizeUrl url := by
  have hshort : ∀ v : String,
      (pyStartsWith v "http://" || pyStartsWith v "https://") = true →
      normalizeUrl v = v := by
    intro v hv
    unfold normalizeUrl
    rw [if_pos hv]
  have hlong : ∀ v : String,
      (pyStartsWith v "http://" || pyStartsWith v "https://") = false →
      normalizeUrl v = "https://" ++ v := by
    intro v hv
    unfold normalizeUrl
    rw [if_neg (by simp only [hv]; exact Bool.false_ne_true)]
  refine ⟨hshort url, hlong url, ?_⟩
  by_cases hc : (pyStartsWith url "http://" || pyStartsWith url "https://") = true
  · rw [hshort url hc, hshort url hc]
  · have hc' : (pyStartsWith url "http://" || pyStartsWith url "https://") = false := by
      simpa using hc
    rw [hlong url hc']
    exact hshort ("https://" ++ url)
      (by rw [pyStartsWith_https_append, Bool.or_true])

/-- Witness for the amended C6: a bare domain gets the prefix and an
`http://` URL is left unchanged. -/
theorem c6_normalize_amended_witness :
    normalizeUrl "example.com" = "https://example.com" ∧
    normalizeUrl "http://example.com" = "http://example.com" :=
  ⟨(c6_normalize_amended "example.com").2.1 (by decide),
   (c6_normalize_amended "http://example.com").1 (by decide)⟩

/-- Claim C7: a URL whose netloc is empty after normalization is rejected
with the structured error object "Invalid URL", and the result does not
depend on any oracle — no network call is involved and no exception reaches
the caller (src/main.py lines 83-88). -/
theorem c7_invalid_url (O : Oracles) (so : List String → List String)
    (url : String)
    (h : netlocOf (normalizeUrl url) = "") :
    analyze_logic O so url = AnalyzeResult.err "Invalid URL" ∧
    (∀ (O' : Oracles) (so' : List String → List String),
        analyze_logic O' so' url = analyze_logic O so url) := by
  constructor
  · unfold analyze_logic
    rw [if_pos h]
  · intro O' so'
    unfold analyze_logic
    rw [if_pos h, if_pos h]

/-- Witness for C7: the empty input URL normalizes to `https://`, whose
netloc is empty, and analysis returns the invalid-URL error. -/
theorem c7_invalid_url_witness :
    analyze_logic failOracles setOrderFwd "" = AnalyzeResult.err "Invalid URL" :=
  (c7_invalid_url failOracles setOrderFwd "" (by decide)).1

/-- Counterexample to claim C8 as stated: with identical mocked responses,
two runs that only differ in the runtime's set iteration order (both orders
valid) produce different Report bytes — the socials list comes out as
`list(set(socials))[:5]` (src/main.py line 155), so its order is not fixed
by the source. -/
theorem c8_rerun_counterexample :
    ValidSetOrder setOrderFwd ∧ ValidSetOrder setOrderRev ∧
    analyze_logic socialOracles setOrderFwd "example.com" ≠
      analyze_logic socialOracles setOrderRev "example.com" :=
  ⟨validSetOrderFwd, validSetOrderRev, by decide⟩

/-- Claim C8 (amended): for fixed mocked responses, two runs of the analysis
agree on every field of the Report except possibly the socials list
(whose order, and beyond five distinct links also its selection, depends on
the set iteration order); with the same iteration order the output is
identical. -/
theorem c8_rerun_identical_amended (O : Oracles)
    (so so' : List String → List String) (url : String) :
    stripSocials (analyze_logic O so url) = stripSocials (analyze_logic O so' url) := by
  unfold analyze_logic
  by_cases hd : netlocOf (normalizeUrl url) = ""
  · rw [if_pos hd, if_pos hd]
  · rw [if_neg hd, if_neg hd]
    cases hf : O.fetch (normalizeUrl url) with
    | error e => rfl
    | ok resp => rfl

/-- Claim C9: the overview description equals the meta description verbatim
when it has at most 100 characters, and otherwise its first 100 characters
followed by an ellipsis; the field never exceeds 103 characters, and a page
without a meta description yields the literal "No Description"
(src/main.py lines 104-105 and 146). -/
theorem c9_description_truncation (O : Oracles) (so : List String → List String)
    (url : String) (resp : Fetched) (r : Report)
    (hf : O.fetch (normalizeUrl url) = Except.ok resp)
    (hr : analyze_logic O so url = AnalyzeResult.ok r) :
    ((resp.page.metaDescription.getD "No Description").length ≤ 100 →
        r.overview.description = resp.page.metaDescription.getD "No Description") ∧
    (100 < (resp.page.metaDescription.getD "No Description").length →
        r.overview.description =
          String.mk ((resp.page.metaDescription.getD "No Description").data.take 100
            ++ "...".data)) ∧
    r.overview.description.length ≤ 103 ∧
    (resp.page.metaDescription = none → r.overview.description = "No Description") := by
  obtain ⟨hd, resp', hf', hrb⟩ := analyze_ok_iff.mp hr
  rw [hf] at hf'
  injection hf' with he
  subst he
  subst hrb
  have hdesc : (buildReport O so url resp).overview.description =
      truncateDescription (resp.page.metaDescription.getD "No Description") := rfl
  refine ⟨?_, ?_, ?_, ?_⟩
  · intro hle
    rw [hdesc, truncateDescription_short hle]
  · intro hgt
    rw [hdesc, truncateDescription_long hgt]
  · rw [hdesc]
    exact truncateDescription_length _
  · intro hnone
    rw [hdesc, hnone]
    rfl

/-- Witness for C9: the demo page has no meta description and the rendered
description is the literal "No Description". -/
theorem c9_description_truncation_witness :
    demoReport.overview.description = "No Description" :=
  (c9_description_truncation demoOracles setOrderFwd "example.com" demoFetched
      demoReport rfl (by decide)).2.2.2 rfl

/-- Claim C10: the socials field of a successful Report has at most five
entries, and every entry is an anchor href of the fetched page whose
lowercased text contains one of the five social substrings
(src/main.py lines 108-113 and 155). -/
theorem c10_socials_bounded (O : Oracles) (so : List String → List String)
    (url : String) (resp : Fetched) (r : Report)
    (hso : ValidSetOrder so)
    (hf : O.fetch (normalizeUrl url) = Except.ok resp)
    (hr : analyze_logic O so url = AnalyzeResult.ok r) :
    r.socials.length ≤ 5 ∧
    ∀ s ∈ r.socials, s ∈ resp.page.anchorHrefs ∧ socialMatch s = true := by
  obtain ⟨hd, resp', hf', hrb⟩ := analyze_ok_iff.mp hr
  rw [hf] at hf'
  injection hf' with he
  subst he
  subst hrb
  constructor
  · show ((so (collectSocials resp.page.anchorHrefs [])).take 5).length ≤ 5
    rw [List.length_take]
    omega
  · intro s hs
    have hs1 : s ∈ so (collectSocials resp.page.anchorHrefs []) :=
      List.take_subset _ _ hs
    have hs2 : s ∈ collectSocials resp.page.anchorHrefs [] :=
      ((hso _).2 s).mp hs1
    rcases mem_collectSocials _ _ _ hs2 with h1 | h2
    · simp at h1
    · exact h2

/-- Witness for C10: the social demo page yields a report whose socials list
is within the bound, and its first entry is a matching anchor href. -/
theorem c10_socials_bounded_witness :
    socialReport.socials.length ≤ 5 ∧
    ("https://facebook.com/a" ∈ socialPage.anchorHrefs ∧
      socialMatch "https://facebook.com/a" = true) :=
  ⟨(c10_socials_bounded socialOracles setOrderFwd "example.com" socialFetched
      socialReport validSetOrderFwd rfl (by decide)).1,
   (c10_socials_bounded socialOracles setOrderFwd "example.com" socialFetched
      socialReport validSetOrderFwd rfl (by decide)).2
     "https://facebook.com/a" (by decide)⟩

end SiteInspector
